import Mathlib

/-!
# Verification of the BnLCharts `bnl-docked-layout` directive

Shallow embedding of `src/BnLCharts/bnlCharts/directives/bnl-docked-layout.js`.

Modelling conventions
---------------------
* A JavaScript number is modelled by `JsNum := Option ℚ`, with `none`
  standing for `NaN`.  The only numeric operations the directive performs
  are `+`, `-`, `Math.max` and `Math.min`; in JavaScript each of these
  propagates `NaN` (`NaN + x = NaN`, `Math.max(NaN, x) = NaN`), which is
  exactly the `none`-propagation of `jadd`/`jsub`/`jmax`/`jmin` below.
  Floating-point rounding plays no role in any claim (all stated equations
  are exact), so finite values are modelled by rationals.
* An attribute read `$child.attr(name)` yields a string or `undefined`.
  The directive only ever uses attribute strings through JavaScript
  truthiness (`undefined` and `""` are falsy) and through `Number(...)`
  (which yields `NaN` on non-numeric text).  We therefore model:
  - the `margin` attribute as `Option (List JsNum)`: `none` for an
    absent/empty attribute (`if (text)` fails), and otherwise the list of
    `Number(part)` values for the comma-split parts, `none` entries being
    the parts on which `Number` returned `NaN`;
  - the `width`/`height` attributes as `Option JsNum`: `none` for an
    absent/empty (falsy) attribute, `some v` for a truthy attribute whose
    `Number(...)` value is `v`;
  - the `dock` attribute as `Option String`: `none` for an absent
    attribute, `some s` for the raw string.
* `positionChild` writes a translate transform and a width/height onto the
  child; we record the written rectangle `(x, y, width, height)` together
  with the child's index (its opaque handle).  `console.log` in the
  unknown-dock branch is recorded as a warning carrying the child's index.
-/

/-- A JavaScript number: `none` is `NaN`, `some q` a finite value. -/
abbrev JsNum : Type := Option ℚ

/-- JavaScript addition: `NaN` propagates. -/
def jadd (a b : JsNum) : JsNum :=
  match a, b with
  | some a, some b => some (a + b)
  | _, _ => none

/-- JavaScript subtraction: `NaN` propagates. -/
def jsub (a b : JsNum) : JsNum :=
  match a, b with
  | some a, some b => some (a - b)
  | _, _ => none

/-- `Math.max`: returns `NaN` if either argument is `NaN`. -/
def jmax (a b : JsNum) : JsNum :=
  match a, b with
  | some a, some b => some (max a b)
  | _, _ => none

/-- `Math.min`: returns `NaN` if either argument is `NaN`. -/
def jmin (a b : JsNum) : JsNum :=
  match a, b with
  | some a, some b => some (min a b)
  | _, _ => none

/-- The four-sided margin record built by `parseMargin` (lines 37–42).
Every field is assigned only under a `!isNaN(...)` guard from the default
`0`, so margin fields are always finite numbers. -/
structure Margin where
  top : ℚ := 0
  right : ℚ := 0
  bottom : ℚ := 0
  left : ℚ := 0
deriving DecidableEq, Repr

/-- `parseMargin` (lines 35–122).  The input is the `margin` attribute
after the string work the model abstracts: `none` when `if (text)` fails
(absent or empty attribute), otherwise the `Number(...)` values of the
comma-split parts.  The `switch (parts.length)` is mirrored case by case;
the `default` branch applies the first four parts when `parts.length >= 4`
and otherwise leaves the all-zero record. -/
def parseMargin (text : Option (List JsNum)) : Margin :=
  match text with
  | none => {}
  | some parts =>
    match parts with
    | [a] =>
      match a with
      | some v => { top := v, right := v, bottom := v, left := v }
      | none => {}
    | [a, b] =>
      let m : Margin := {}
      let m := match a with
        | some v => { m with top := v, bottom := v }
        | none => m
      let m := match b with
        | some v => { m with right := v, left := v }
        | none => m
      m
    | [a, b, c] =>
      let m : Margin := {}
      let m := match a with
        | some v => { m with top := v }
        | none => m
      let m := match b with
        | some v => { m with right := v, left := v }
        | none => m
      let m := match c with
        | some v => { m with bottom := v }
        | none => m
      m
    | a :: b :: c :: d :: _ =>
      let m : Margin := {}
      let m := match a with
        | some v => { m with top := v }
        | none => m
      let m := match b with
        | some v => { m with right := v }
        | none => m
      let m := match c with
        | some v => { m with bottom := v }
        | none => m
      let m := match d with
        | some v => { m with left := v }
        | none => m
      m
    | [] => {}

/-- The attributes the render handler reads from one child element
(lines 165–175), under the conventions documented at the top of the file. -/
structure ChildAttrs where
  margin : Option (List JsNum) := none
  width : Option JsNum := none
  height : Option JsNum := none
  dock : Option String := none
deriving DecidableEq, Repr

/-- The rectangle `positionChild` applies to a child: translate offset
`(x, y)` and the width/height written to the child scope (lines 124–136). -/
structure Rect where
  x : JsNum
  y : JsNum
  width : JsNum
  height : JsNum
deriving DecidableEq, Repr

/-- The `undockedMargin` working value (line 159): four absolute
coordinates bounding the undocked region. -/
structure Frame where
  top : JsNum
  right : JsNum
  bottom : JsNum
  left : JsNum
deriving DecidableEq, Repr

/-- JavaScript truthiness of an optional attribute string: `undefined`
and `""` are falsy, every other string truthy. -/
def truthy : Option String → Bool
  | some s => s ≠ ""
  | none => false

/-- `childWidth = $child.attr('width') ? Number($child.attr('width')) : width`
(line 169): the pre-dock width, falling back to the parent width. -/
def resolvedWidth (width : ℚ) (c : ChildAttrs) : JsNum :=
  match c.width with
  | some v => v
  | none => some width

/-- `childHeight = $child.attr('height') ? Number($child.attr('height')) : height`
(line 170): the pre-dock height, falling back to the parent height. -/
def resolvedHeight (height : ℚ) (c : ChildAttrs) : JsNum :=
  match c.height with
  | some v => v
  | none => some height

/-- `childDockWidth = childMargin.left + childWidth + childMargin.right`
(line 173): the margin-inclusive horizontal footprint of a child. -/
def childDockWidth (width : ℚ) (c : ChildAttrs) : JsNum :=
  jadd (jadd (some (parseMargin c.margin).left) (resolvedWidth width c))
    (some (parseMargin c.margin).right)

/-- `childDockHeight = childMargin.top + childHeight + childMargin.bottom`
(line 172): the margin-inclusive vertical footprint of a child. -/
def childDockHeight (height : ℚ) (c : ChildAttrs) : JsNum :=
  jadd (jadd (some (parseMargin c.margin).top) (resolvedHeight height c))
    (some (parseMargin c.margin).bottom)

/-- Whether the dock attribute hits one of the four recognized `switch`
cases (lines 178–195); everything else ends up in the undocked queue. -/
def recognizedDock (c : ChildAttrs) : Bool :=
  match c.dock with
  | some s => s == "top" || s == "right" || s == "bottom" || s == "left"
  | none => false

/-- Result of processing one child in the docked pass: the updated frame,
the rectangle positioned immediately (recognized dock), the margin pushed
onto the undocked queue (no dock / unrecognized dock), and whether the
unknown-dock warning was logged.  Exactly one of `placed`/`deferred` is
`some`. -/
structure StepResult where
  frame : Frame
  placed : Option Rect
  deferred : Option Margin
  warned : Bool
deriving DecidableEq, Repr

/-- One iteration of the `$.each` loop over children (lines 161–209):
margin parsing, position/size resolution, the dock `switch`, and either an
immediate `positionChild` or a push onto the `undocked` queue. -/
def stepChild (x y width height : ℚ) (frame : Frame) (c : ChildAttrs) : StepResult :=
  let childMargin := parseMargin c.margin
  let childX : JsNum := some (x + childMargin.left)
  let childY : JsNum := some (y + childMargin.top)
  let childWidth := resolvedWidth width c
  let childHeight := resolvedHeight height c
  let cdh := childDockHeight height c
  let cdw := childDockWidth width c
  match c.dock with
  | none =>
    { frame := frame, placed := none, deferred := some childMargin, warned := false }
  | some s =>
    if s = "" then
      { frame := frame, placed := none, deferred := some childMargin, warned := false }
    else if s = "top" then
      { frame := { frame with top := jmax (jadd (some y) cdh) frame.top }
        placed := some { x := childX, y := childY
                         width := jsub childWidth (some (childMargin.left + childMargin.right))
                         height := childHeight }
        deferred := none, warned := false }
    else if s = "right" then
      { frame := { frame with right := jmin (jsub (some width) cdw) frame.right }
        placed := some { x := jsub (some width) cdw, y := childY
                         width := childWidth
                         height := jsub childHeight (some (childMargin.top + childMargin.bottom)) }
        deferred := none, warned := false }
    else if s = "bottom" then
      { frame := { frame with bottom := jmin (jsub (some height) cdh) frame.bottom }
        placed := some { x := childX, y := jsub (some height) cdh
                         width := jsub childWidth (some (childMargin.left + childMargin.right))
                         height := childHeight }
        deferred := none, warned := false }
    else if s = "left" then
      { frame := { frame with left := jmax (jadd (some x) cdw) frame.left }
        placed := some { x := childX, y := childY
                         width := childWidth
                         height := jsub childHeight (some (childMargin.top + childMargin.bottom)) }
        deferred := none, warned := false }
    else
      { frame := frame, placed := none, deferred := some childMargin, warned := true }

/-- The docked pass (lines 161–209) over the children starting at index
`i`: returns the final frame, the `positionChild` calls made during this
pass (child index paired with rectangle, in call order), the `undocked`
queue (child index paired with its parsed margin, in push order), and the
indices of children for which the unknown-dock warning was logged. -/
def runPass1 (x y width height : ℚ) (frame : Frame) (i : ℕ) :
    List ChildAttrs → Frame × List (ℕ × Rect) × List (ℕ × Margin) × List ℕ
  | [] => (frame, [], [], [])
  | c :: cs =>
    let s := stepChild x y width height frame c
    let rest := runPass1 x y width height s.frame (i + 1) cs
    (rest.1,
     (match s.placed with | some r => [(i, r)] | none => []) ++ rest.2.1,
     (match s.deferred with | some m => [(i, m)] | none => []) ++ rest.2.2.1,
     (if s.warned then [i] else []) ++ rest.2.2.2)

/-- The rectangle assigned to a deferred undocked child from the finalized
frame and its own parsed margin (lines 217–220). -/
def undockedRect (frame : Frame) (m : Margin) : Rect :=
  let childX := jadd frame.left (some m.left)
  let childY := jadd frame.top (some m.top)
  { x := childX, y := childY
    width := jsub (jsub frame.right (some m.right)) childX
    height := jsub (jsub frame.bottom (some m.bottom)) childY }

/-- `undockedMargin = { top: 0, right: width, bottom: height, left: 0 }`
(line 159): the initial undocked frame spans the whole parent. -/
def initFrame (width height : ℚ) : Frame :=
  { top := some 0, right := some width, bottom := some height, left := some 0 }

/-- The whole `bnl-chart-render` handler (lines 147–224) for parent
dimensions `width × height`: `x = 0, y = 0`,
`undockedMargin = {top: 0, right: width, bottom: height, left: 0}`, the
docked pass, then the undocked loop over the queue.  Returns the list of
`positionChild` calls in call order (docked children first, then the
deferred undocked children in their original input order), and the list
of warned child indices. -/
def layoutEngine (width height : ℚ) (children : List ChildAttrs) :
    List (ℕ × Rect) × List ℕ :=
  let p := runPass1 0 0 width height (initFrame width height) 0 children
  (p.2.1 ++ p.2.2.1.map (fun q => (q.1, undockedRect p.1 q.2)), p.2.2.2)

/-- The finalized undocked frame of one invocation. -/
def finalFrame (width height : ℚ) (children : List ChildAttrs) : Frame :=
  (runPass1 0 0 width height (initFrame width height) 0 children).1

/-- One frame bound that may only move in the increasing direction
(`top`/`left`, updated with `Math.max`): a finite old value is dominated by
a finite new value, and a `NaN` bound can never become finite again
because every operation writing the field propagates `NaN`. -/
def jGrows : JsNum → JsNum → Prop
  | some a, some b => a ≤ b
  | some _, none => True
  | none, some _ => False
  | none, none => True

/-- One frame bound that may only move in the decreasing direction
(`right`/`bottom`, updated with `Math.min`). -/
def jShrinks : JsNum → JsNum → Prop
  | some a, some b => b ≤ a
  | some _, none => True
  | none, some _ => False
  | none, none => True

/-- Monotone evolution of the undocked frame across the docked pass:
`top` and `left` never decrease, `right` and `bottom` never increase. -/
def frameMono (fr fr' : Frame) : Prop :=
  jGrows fr.top fr'.top ∧ jShrinks fr.right fr'.right ∧
    jShrinks fr.bottom fr'.bottom ∧ jGrows fr.left fr'.left

/-! ## Basic facts about the JavaScript number operations -/

theorem jadd_some (a b : ℚ) : jadd (some a) (some b) = some (a + b) := rfl

theorem jsub_some (a b : ℚ) : jsub (some a) (some b) = some (a - b) := rfl

theorem jmax_some (a b : ℚ) : jmax (some a) (some b) = some (max a b) := rfl

theorem jmin_some (a b : ℚ) : jmin (some a) (some b) = some (min a b) := rfl

theorem jadd_none_left (b : JsNum) : jadd none b = none := rfl

theorem jadd_none_right (a : JsNum) : jadd a none = none := by
  cases a <;> rfl

theorem jsub_none_right (a : JsNum) : jsub a none = none := by
  cases a <;> rfl

theorem jsub_none_left (b : JsNum) : jsub none b = none := rfl

theorem jmax_none_left (b : JsNum) : jmax none b = none := rfl

theorem jmin_none_left (b : JsNum) : jmin none b = none := rfl

theorem jmax_none_right (a : JsNum) : jmax a none = none := by
  cases a <;> rfl

theorem jmin_none_right (a : JsNum) : jmin a none = none := by
  cases a <;> rfl

/-! ## Unfolding equations for `stepChild`, one per dock `switch` case -/

theorem stepChild_dock_none (x y w h : ℚ) (fr : Frame) (m : Option (List JsNum))
    (cw ch : Option JsNum) :
    stepChild x y w h fr ⟨m, cw, ch, none⟩ = ⟨fr, none, some (parseMargin m), false⟩ := rfl

theorem stepChild_dock_empty (x y w h : ℚ) (fr : Frame) (m : Option (List JsNum))
    (cw ch : Option JsNum) :
    stepChild x y w h fr ⟨m, cw, ch, some ""⟩ = ⟨fr, none, some (parseMargin m), false⟩ := rfl

theorem stepChild_dock_top (x y w h : ℚ) (fr : Frame) (m : Option (List JsNum))
    (cw ch : Option JsNum) :
    stepChild x y w h fr ⟨m, cw, ch, some "top"⟩ =
      { frame := { fr with
          top := jmax (jadd (some y) (childDockHeight h ⟨m, cw, ch, some "top"⟩)) fr.top }
        placed := some
          { x := some (x + (parseMargin m).left), y := some (y + (parseMargin m).top)
            width := jsub (resolvedWidth w ⟨m, cw, ch, some "top"⟩)
              (some ((parseMargin m).left + (parseMargin m).right))
            height := resolvedHeight h ⟨m, cw, ch, some "top"⟩ }
        deferred := none, warned := false } := rfl

theorem stepChild_dock_right (x y w h : ℚ) (fr : Frame) (m : Option (List JsNum))
    (cw ch : Option JsNum) :
    stepChild x y w h fr ⟨m, cw, ch, some "right"⟩ =
      { frame := { fr with
          right := jmin (jsub (some w) (childDockWidth w ⟨m, cw, ch, some "right"⟩)) fr.right }
        placed := some
          { x := jsub (some w) (childDockWidth w ⟨m, cw, ch, some "right"⟩)
            y := some (y + (parseMargin m).top)
            width := resolvedWidth w ⟨m, cw, ch, some "right"⟩
            height := jsub (resolvedHeight h ⟨m, cw, ch, some "right"⟩)
              (some ((parseMargin m).top + (parseMargin m).bottom)) }
        deferred := none, warned := false } := rfl

theorem stepChild_dock_bottom (x y w h : ℚ) (fr : Frame) (m : Option (List JsNum))
    (cw ch : Option JsNum) :
    stepChild x y w h fr ⟨m, cw, ch, some "bottom"⟩ =
      { frame := { fr with
          bottom := jmin (jsub (some h) (childDockHeight h ⟨m, cw, ch, some "bottom"⟩)) fr.bottom }
        placed := some
          { x := some (x + (parseMargin m).left)
            y := jsub (some h) (childDockHeight h ⟨m, cw, ch, some "bottom"⟩)
            width := jsub (resolvedWidth w ⟨m, cw, ch, some "bottom"⟩)
              (some ((parseMargin m).left + (parseMargin m).right))
            height := resolvedHeight h ⟨m, cw, ch, some "bottom"⟩ }
        deferred := none, warned := false } := rfl

theorem stepChild_dock_left (x y w h : ℚ) (fr : Frame) (m : Option (List JsNum))
    (cw ch : Option JsNum) :
    stepChild x y w h fr ⟨m, cw, ch, some "left"⟩ =
      { frame := { fr with
          left := jmax (jadd (some x) (childDockWidth w ⟨m, cw, ch, some "left"⟩)) fr.left }
        placed := some
          { x := some (x + (parseMargin m).left), y := some (y + (parseMargin m).top)
            width := resolvedWidth w ⟨m, cw, ch, some "left"⟩
            height := jsub (resolvedHeight h ⟨m, cw, ch, some "left"⟩)
              (some ((parseMargin m).top + (parseMargin m).bottom)) }
        deferred := none, warned := false } := rfl

theorem stepChild_dock_unknown (x y w h : ℚ) (fr : Frame) (c : ChildAttrs) (s : String)
    (hd : c.dock = some s) (h0 : s ≠ "") (h1 : s ≠ "top") (h2 : s ≠ "right")
    (h3 : s ≠ "bottom") (h4 : s ≠ "left") :
    stepChild x y w h fr c = ⟨fr, none, some (parseMargin c.margin), true⟩ := by
  obtain ⟨m, cw, ch, d⟩ := c
  cases hd
  simp only [stepChild]
  rw [if_neg h0, if_neg h1, if_neg h2, if_neg h3, if_neg h4]

/-! ## Structural facts about the docked pass -/

theorem stepChild_shape (x y w h : ℚ) (fr : Frame) (c : ChildAttrs) :
    (∃ g r, stepChild x y w h fr c = ⟨g, some r, none, false⟩) ∨
    (∃ mm b, stepChild x y w h fr c = ⟨fr, none, some mm, b⟩) := by
  obtain ⟨m, cw, ch, d⟩ := c
  cases d with
  | none => exact Or.inr ⟨_, _, rfl⟩
  | some s =>
    by_cases h0 : s = ""
    · subst h0; exact Or.inr ⟨_, _, rfl⟩
    by_cases h1 : s = "top"
    · subst h1; exact Or.inl ⟨_, _, rfl⟩
    by_cases h2 : s = "right"
    · subst h2; exact Or.inl ⟨_, _, rfl⟩
    by_cases h3 : s = "bottom"
    · subst h3; exact Or.inl ⟨_, _, rfl⟩
    by_cases h4 : s = "left"
    · subst h4; exact Or.inl ⟨_, _, rfl⟩
    exact Or.inr ⟨_, _, stepChild_dock_unknown x y w h fr _ s rfl h0 h1 h2 h3 h4⟩

theorem runPass1_nil (x y w h : ℚ) (fr : Frame) (i : ℕ) :
    runPass1 x y w h fr i [] = (fr, [], [], []) := rfl

theorem runPass1_cons (x y w h : ℚ) (fr : Frame) (i : ℕ) (c : ChildAttrs)
    (cs : List ChildAttrs) :
    runPass1 x y w h fr i (c :: cs) =
      ((runPass1 x y w h (stepChild x y w h fr c).frame (i + 1) cs).1,
       (match (stepChild x y w h fr c).placed with | some r => [(i, r)] | none => []) ++
         (runPass1 x y w h (stepChild x y w h fr c).frame (i + 1) cs).2.1,
       (match (stepChild x y w h fr c).deferred with | some m => [(i, m)] | none => []) ++
         (runPass1 x y w h (stepChild x y w h fr c).frame (i + 1) cs).2.2.1,
       (if (stepChild x y w h fr c).warned then [i] else []) ++
         (runPass1 x y w h (stepChild x y w h fr c).frame (i + 1) cs).2.2.2) := rfl

theorem runPass1_frame_index (x y w h : ℚ) :
    ∀ (cs : List ChildAttrs) (fr : Frame) (i j : ℕ),
      (runPass1 x y w h fr i cs).1 = (runPass1 x y w h fr j cs).1
  | [], _, _, _ => rfl
  | c :: cs, fr, i, j =>
    runPass1_frame_index x y w h cs (stepChild x y w h fr c).frame (i + 1) (j + 1)

theorem runPass1_append (x y w h : ℚ) :
    ∀ (l1 l2 : List ChildAttrs) (fr : Frame) (i : ℕ),
      runPass1 x y w h fr i (l1 ++ l2) =
        ((runPass1 x y w h (runPass1 x y w h fr i l1).1 (i + l1.length) l2).1,
         (runPass1 x y w h fr i l1).2.1 ++
           (runPass1 x y w h (runPass1 x y w h fr i l1).1 (i + l1.length) l2).2.1,
         (runPass1 x y w h fr i l1).2.2.1 ++
           (runPass1 x y w h (runPass1 x y w h fr i l1).1 (i + l1.length) l2).2.2.1,
         (runPass1 x y w h fr i l1).2.2.2 ++
           (runPass1 x y w h (runPass1 x y w h fr i l1).1 (i + l1.length) l2).2.2.2) := by
  intro l1
  induction l1 with
  | nil => intro l2 fr i; simp [runPass1]
  | cons c l1 ih =>
    intro l2 fr i
    have hlen : i + 1 + l1.length = i + (c :: l1).length := by
      simp [List.length_cons]; omega
    simp only [List.cons_append, runPass1_cons, ih, List.append_assoc, hlen]

theorem runPass1_deferred_bounds (x y w h : ℚ) :
    ∀ (cs : List ChildAttrs) (fr : Frame) (i j : ℕ),
      j ∈ ((runPass1 x y w h fr i cs).2.2.1.map Prod.fst) → i ≤ j ∧ j < i + cs.length := by
  intro cs
  induction cs with
  | nil => intro fr i j hj; simp [runPass1] at hj
  | cons c cs ih =>
    intro fr i j hj
    rw [runPass1_cons] at hj
    rcases stepChild_shape x y w h fr c with ⟨g, r, heq⟩ | ⟨mm, b, heq⟩ <;>
      simp only [heq, List.map_append, List.mem_append, List.map_cons, List.mem_cons,
        List.map_nil, List.not_mem_nil, false_or, or_false] at hj
    · have := ih g (i + 1) j hj
      simp only [List.length_cons]
      omega
    · rcases hj with hj | hj
      · subst hj; simp only [List.length_cons]; omega
      · have := ih fr (i + 1) j hj
        simp only [List.length_cons]
        omega

theorem runPass1_warns_bounds (x y w h : ℚ) :
    ∀ (cs : List ChildAttrs) (fr : Frame) (i j : ℕ),
      j ∈ (runPass1 x y w h fr i cs).2.2.2 → i ≤ j ∧ j < i + cs.length := by
  intro cs
  induction cs with
  | nil => intro fr i j hj; simp [runPass1] at hj
  | cons c cs ih =>
    intro fr i j hj
    rw [runPass1_cons] at hj
    cases hw : (stepChild x y w h fr c).warned <;> rw [hw] at hj <;> simp at hj
    · have := ih (stepChild x y w h fr c).frame (i + 1) j hj
      simp only [List.length_cons]
      omega
    · rcases hj with hj | hj
      · subst hj; simp only [List.length_cons]; omega
      · have := ih (stepChild x y w h fr c).frame (i + 1) j hj
        simp only [List.length_cons]
        omega

theorem runPass1_deferred_sorted (x y w h : ℚ) :
    ∀ (cs : List ChildAttrs) (fr : Frame) (i : ℕ),
      List.Sorted (· < ·) ((runPass1 x y w h fr i cs).2.2.1.map Prod.fst) := by
  intro cs
  induction cs with
  | nil => intro fr i; simp [runPass1]
  | cons c cs ih =>
    intro fr i
    rw [runPass1_cons]
    rcases stepChild_shape x y w h fr c with ⟨g, r, heq⟩ | ⟨mm, b, heq⟩ <;>
      simp only [heq, List.map_append, List.map_cons, List.map_nil, List.nil_append,
        List.cons_append]
    · exact ih g (i + 1)
    · rw [List.sorted_cons]
      refine ⟨fun b hb => ?_, ih fr (i + 1)⟩
      exact (runPass1_deferred_bounds x y w h cs fr (i + 1) b hb).1

theorem runPass1_keys_perm (x y w h : ℚ) :
    ∀ (cs : List ChildAttrs) (fr : Frame) (i : ℕ),
      ((runPass1 x y w h fr i cs).2.1.map Prod.fst ++
        (runPass1 x y w h fr i cs).2.2.1.map Prod.fst).Perm (List.range' i cs.length) := by
  intro cs
  induction cs with
  | nil => intro fr i; simp [runPass1]
  | cons c cs ih =>
    intro fr i
    rw [runPass1_cons]
    rcases stepChild_shape x y w h fr c with ⟨g, r, heq⟩ | ⟨mm, b, heq⟩ <;>
      simp only [heq, List.map_append, List.map_cons, List.map_nil, List.nil_append,
        List.cons_append, List.length_cons, List.range'_succ]
    · exact (ih g (i + 1)).cons i
    · exact List.perm_middle.trans ((ih fr (i + 1)).cons i)

/-! ## Monotone evolution of the frame bounds -/

theorem jGrows_refl (a : JsNum) : jGrows a a := by
  cases a <;> simp [jGrows]

theorem jShrinks_refl (a : JsNum) : jShrinks a a := by
  cases a <;> simp [jShrinks]

theorem jGrows_trans {a b c : JsNum} (h1 : jGrows a b) (h2 : jGrows b c) : jGrows a c := by
  cases a <;> cases b <;> cases c <;> simp [jGrows] at *
  exact le_trans h1 h2

theorem jShrinks_trans {a b c : JsNum} (h1 : jShrinks a b) (h2 : jShrinks b c) :
    jShrinks a c := by
  cases a <;> cases b <;> cases c <;> simp [jShrinks] at *
  exact le_trans h2 h1

theorem jGrows_jmax (a b : JsNum) : jGrows b (jmax a b) := by
  cases a <;> cases b <;> simp [jGrows, jmax]

theorem jShrinks_jmin (a b : JsNum) : jShrinks b (jmin a b) := by
  cases a <;> cases b <;> simp [jShrinks, jmin]

theorem frameMono_refl (fr : Frame) : frameMono fr fr :=
  ⟨jGrows_refl _, jShrinks_refl _, jShrinks_refl _, jGrows_refl _⟩

theorem frameMono_trans {f1 f2 f3 : Frame} (h1 : frameMono f1 f2) (h2 : frameMono f2 f3) :
    frameMono f1 f3 :=
  ⟨jGrows_trans h1.1 h2.1, jShrinks_trans h1.2.1 h2.2.1,
    jShrinks_trans h1.2.2.1 h2.2.2.1, jGrows_trans h1.2.2.2 h2.2.2.2⟩

theorem stepChild_frameMono (x y w h : ℚ) (fr : Frame) (c : ChildAttrs) :
    frameMono fr (stepChild x y w h fr c).frame := by
  obtain ⟨m, cw, ch, d⟩ := c
  cases d with
  | none => exact frameMono_refl fr
  | some s =>
    by_cases h0 : s = ""
    · subst h0; exact frameMono_refl fr
    by_cases h1 : s = "top"
    · subst h1
      rw [stepChild_dock_top]
      exact ⟨jGrows_jmax _ _, jShrinks_refl _, jShrinks_refl _, jGrows_refl _⟩
    by_cases h2 : s = "right"
    · subst h2
      rw [stepChild_dock_right]
      exact ⟨jGrows_refl _, jShrinks_jmin _ _, jShrinks_refl _, jGrows_refl _⟩
    by_cases h3 : s = "bottom"
    · subst h3
      rw [stepChild_dock_bottom]
      exact ⟨jGrows_refl _, jShrinks_refl _, jShrinks_jmin _ _, jGrows_refl _⟩
    by_cases h4 : s = "left"
    · subst h4
      rw [stepChild_dock_left]
      exact ⟨jGrows_refl _, jShrinks_refl _, jShrinks_refl _, jGrows_jmax _ _⟩
    rw [stepChild_dock_unknown x y w h fr _ s rfl h0 h1 h2 h3 h4]
    exact frameMono_refl fr

theorem runPass1_frameMono (x y w h : ℚ) :
    ∀ (cs : List ChildAttrs) (fr : Frame) (i : ℕ),
      frameMono fr (runPass1 x y w h fr i cs).1 := by
  intro cs
  induction cs with
  | nil => intro fr i; exact frameMono_refl fr
  | cons c cs ih =>
    intro fr i
    rw [runPass1_cons]
    exact frameMono_trans (stepChild_frameMono x y w h fr c)
      (ih (stepChild x y w h fr c).frame (i + 1))

/-! ## Children without a recognized dock leave the frame untouched -/

theorem stepChild_not_recognized (x y w h : ℚ) (fr : Frame) (c : ChildAttrs)
    (hr : recognizedDock c = false) :
    ∃ b, stepChild x y w h fr c = ⟨fr, none, some (parseMargin c.margin), b⟩ := by
  obtain ⟨m, cw, ch, d⟩ := c
  cases d with
  | none => exact ⟨false, rfl⟩
  | some s =>
    simp only [recognizedDock, Bool.or_eq_false_iff, beq_eq_false_iff_ne, ne_eq] at hr
    obtain ⟨⟨⟨h1, h2⟩, h3⟩, h4⟩ := hr
    by_cases h0 : s = ""
    · subst h0; exact ⟨false, rfl⟩
    exact ⟨true, stepChild_dock_unknown x y w h fr _ s rfl h0 h1 h2 h3 h4⟩

theorem runPass1_frame_filter (x y w h : ℚ) :
    ∀ (cs : List ChildAttrs) (fr : Frame) (i j : ℕ),
      (runPass1 x y w h fr i (cs.filter recognizedDock)).1 = (runPass1 x y w h fr j cs).1 := by
  intro cs
  induction cs with
  | nil => intro fr i j; rfl
  | cons c cs ih =>
    intro fr i j
    by_cases hr : recognizedDock c = true
    · rw [List.filter_cons_of_pos hr, runPass1_cons, runPass1_cons]
      exact ih (stepChild x y w h fr c).frame (i + 1) (j + 1)
    · obtain ⟨b, hb⟩ := stepChild_not_recognized x y w h fr c (by simpa using hr)
      rw [List.filter_cons_of_neg (by simpa using hr), runPass1_cons]
      simp only [hb]
      exact ih fr i (j + 1)

/-! ## The claims -/

/-- C4: `parseMargin` implements CSS-shorthand arity semantics: absent or
empty input yields the all-zero margin; 1 part applies to all four sides;
2 parts give top/bottom and left/right; 3 parts give top, left/right,
bottom; 4 or more parts give top, right, bottom, left with extra parts
ignored. -/
theorem C4_parseMargin_arity :
    parseMargin none = ⟨0, 0, 0, 0⟩ ∧
    (∀ a : ℚ, parseMargin (some [some a]) = ⟨a, a, a, a⟩) ∧
    (∀ a b : ℚ, parseMargin (some [some a, some b]) = ⟨a, b, a, b⟩) ∧
    (∀ a b c : ℚ, parseMargin (some [some a, some b, some c]) = ⟨a, b, c, b⟩) ∧
    (∀ (a b c d : ℚ) (rest : List JsNum),
      parseMargin (some (some a :: some b :: some c :: some d :: rest)) = ⟨a, b, c, d⟩) :=
  ⟨rfl, fun _ => rfl, fun _ _ => rfl, fun _ _ _ => rfl, fun _ _ _ _ _ => rfl⟩

/-- C5: `parseMargin` is fail-soft per field: a part whose `Number(...)`
value is `NaN` leaves exactly the field(s) it would have set at the
default `0`, while numerically valid parts in the same string still take
effect; the returned margin always has four finite fields (its type is
four rationals) and no error is raised (`parseMargin` is total).  In
particular `parse("x,2") = {top 0, right 2, bottom 0, left 2}`. -/
theorem C5_parseMargin_fail_soft :
    (∀ a : JsNum, parseMargin (some [a]) = ⟨a.getD 0, a.getD 0, a.getD 0, a.getD 0⟩) ∧
    (∀ a b : JsNum, parseMargin (some [a, b]) = ⟨a.getD 0, b.getD 0, a.getD 0, b.getD 0⟩) ∧
    (∀ a b c : JsNum, parseMargin (some [a, b, c]) = ⟨a.getD 0, b.getD 0, c.getD 0, b.getD 0⟩) ∧
    (∀ (a b c d : JsNum) (rest : List JsNum),
      parseMargin (some (a :: b :: c :: d :: rest)) = ⟨a.getD 0, b.getD 0, c.getD 0, d.getD 0⟩) ∧
    parseMargin (some [none, some 2]) = ⟨0, 2, 0, 2⟩ := by
  refine ⟨fun a => ?_, fun a b => ?_, fun a b c => ?_, fun a b c d rest => ?_, rfl⟩
  · cases a <;> rfl
  · cases a <;> cases b <;> rfl
  · cases a <;> cases b <;> cases c <;> rfl
  · cases a <;> cases b <;> cases c <;> cases d <;> rfl

/-- C1: for every child with a recognized dock side the engine updates the
undocked frame and assigns the child's rectangle exactly as the source's
`switch` does: `top` pushes `frame.top` to `max(frame.top, y + dockHeight)`,
shrinks the width by the side margins and keeps the step-2 position;
`bottom` pulls `frame.bottom` to `min(frame.bottom, height - dockHeight)`
and moves `childY` to `height - dockHeight`; `left` and `right` are the
transposed versions.  In particular, for a 200×100 parent, a child with
`dock=bottom height=20 margin="0,0,5,0"` gets `Rect.y = 75` and
`Rect.height = 20`. -/
theorem C1_docked_arithmetic :
    (∀ (x y w h : ℚ) (fr : Frame) (c : ChildAttrs), c.dock = some "top" →
      stepChild x y w h fr c =
        { frame := { fr with top := jmax (jadd (some y) (childDockHeight h c)) fr.top }
          placed := some
            { x := some (x + (parseMargin c.margin).left)
              y := some (y + (parseMargin c.margin).top)
              width := jsub (resolvedWidth w c)
                (some ((parseMargin c.margin).left + (parseMargin c.margin).right))
              height := resolvedHeight h c }
          deferred := none, warned := false }) ∧
    (∀ (x y w h : ℚ) (fr : Frame) (c : ChildAttrs), c.dock = some "right" →
      stepChild x y w h fr c =
        { frame := { fr with right := jmin (jsub (some w) (childDockWidth w c)) fr.right }
          placed := some
            { x := jsub (some w) (childDockWidth w c)
              y := some (y + (parseMargin c.margin).top)
              width := resolvedWidth w c
              height := jsub (resolvedHeight h c)
                (some ((parseMargin c.margin).top + (parseMargin c.margin).bottom)) }
          deferred := none, warned := false }) ∧
    (∀ (x y w h : ℚ) (fr : Frame) (c : ChildAttrs), c.dock = some "bottom" →
      stepChild x y w h fr c =
        { frame := { fr with bottom := jmin (jsub (some h) (childDockHeight h c)) fr.bottom }
          placed := some
            { x := some (x + (parseMargin c.margin).left)
              y := jsub (some h) (childDockHeight h c)
              width := jsub (resolvedWidth w c)
                (some ((parseMargin c.margin).left + (parseMargin c.margin).right))
              height := resolvedHeight h c }
          deferred := none, warned := false }) ∧
    (∀ (x y w h : ℚ) (fr : Frame) (c : ChildAttrs), c.dock = some "left" →
      stepChild x y w h fr c =
        { frame := { fr with left := jmax (jadd (some x) (childDockWidth w c)) fr.left }
          placed := some
            { x := some (x + (parseMargin c.margin).left)
              y := some (y + (parseMargin c.margin).top)
              width := resolvedWidth w c
              height := jsub (resolvedHeight h c)
                (some ((parseMargin c.margin).top + (parseMargin c.margin).bottom)) }
          deferred := none, warned := false }) ∧
    (layoutEngine 200 100
        [⟨some [some 0, some 0, some 5, some 0], none, some (some 20), some "bottom"⟩]).1.map
        (fun p => (p.2.y, p.2.height)) = [(some 75, some 20)] := by
  refine ⟨?_, ?_, ?_, ?_, ?_⟩
  · intro x y w h fr c hd
    obtain ⟨m, cw, ch, d⟩ := c
    cases hd
    exact stepChild_dock_top x y w h fr m cw ch
  · intro x y w h fr c hd
    obtain ⟨m, cw, ch, d⟩ := c
    cases hd
    exact stepChild_dock_right x y w h fr m cw ch
  · intro x y w h fr c hd
    obtain ⟨m, cw, ch, d⟩ := c
    cases hd
    exact stepChild_dock_bottom x y w h fr m cw ch
  · intro x y w h fr c hd
    obtain ⟨m, cw, ch, d⟩ := c
    cases hd
    exact stepChild_dock_left x y w h fr m cw ch
  · simp only [layoutEngine, runPass1, stepChild_dock_bottom, childDockWidth, childDockHeight,
      resolvedWidth, resolvedHeight, parseMargin, undockedRect, jadd_some, jsub_some,
      jmax_some, jmin_some, List.map]
    norm_num

/-- Witness for C1 at a concrete child (`dock=top height=20` in a 200×100
parent), discharging the dock hypothesis. -/
theorem C1_docked_arithmetic_witness :
    (⟨none, none, some (some 20), some "top"⟩ : ChildAttrs).dock = some "top" ∧
    stepChild 0 0 200 100 (initFrame 200 100) (⟨none, none, some (some 20), some "top"⟩ : ChildAttrs) =
      { frame := { initFrame 200 100 with
          top := jmax (jadd (some 0)
            (childDockHeight 100 (⟨none, none, some (some 20), some "top"⟩ : ChildAttrs)))
            (initFrame 200 100).top }
        placed := some
          { x := some (0 + (parseMargin none).left)
            y := some (0 + (parseMargin none).top)
            width := jsub (resolvedWidth 200 (⟨none, none, some (some 20), some "top"⟩ : ChildAttrs))
              (some ((parseMargin none).left + (parseMargin none).right))
            height := resolvedHeight 100 (⟨none, none, some (some 20), some "top"⟩ : ChildAttrs) }
        deferred := none, warned := false } :=
  ⟨rfl, C1_docked_arithmetic.1 0 0 200 100 (initFrame 200 100) _ rfl⟩

/-- C3: during one invocation's docked pass the frame bounds evolve
monotonically — `top` and `left` never decrease, `right` and `bottom`
never increase — from any intermediate frame onward.  Consequently two
children both docked `top` with `height=10` in a 200×100 parent both
receive the rectangle `(0, 0, 200, 10)`: they overlap instead of
stacking, because each is measured from the original parent edges. -/
theorem C3_frame_monotone :
    (∀ (x y w h : ℚ) (cs : List ChildAttrs) (fr : Frame) (i : ℕ),
      frameMono fr (runPass1 x y w h fr i cs).1) ∧
    (layoutEngine 200 100 [⟨none, none, some (some 10), some "top"⟩,
        ⟨none, none, some (some 10), some "top"⟩]).1 =
      [(0, ⟨some 0, some 0, some 200, some 10⟩), (1, ⟨some 0, some 0, some 200, some 10⟩)] := by
  refine ⟨fun x y w h cs fr i => runPass1_frameMono x y w h cs fr i, ?_⟩
  simp only [layoutEngine, runPass1, stepChild_dock_top, childDockWidth, childDockHeight,
    resolvedWidth, resolvedHeight, parseMargin, undockedRect, jadd_some, jsub_some,
    jmax_some, jmin_some, List.map]
  norm_num

/-- C2: after all children are processed, every deferred undocked child
(including children degraded from an unrecognized dock value) is placed
from the finalized frame and its own parsed margin:
`childX = frame.left + margin.left`, `childY = frame.top + margin.top`,
`childWidth = (frame.right - margin.right) - childX`,
`childHeight = (frame.bottom - margin.bottom) - childY`; the deferred
children are processed in their original input order (their queue of
indices is strictly increasing).  In particular, for a 200×100 parent with
child1 `dock=left width=50` and child2 undocked, child1 gets
`(0, 0, 50, 100)` and child2 gets `(50, 0, 150, 100)`. -/
theorem C2_undocked_placement :
    (∀ (w h : ℚ) (cs : List ChildAttrs),
      (layoutEngine w h cs).1 =
        (runPass1 0 0 w h (initFrame w h) 0 cs).2.1 ++
          (runPass1 0 0 w h (initFrame w h) 0 cs).2.2.1.map (fun q =>
            ((q.1,
              { x := jadd (finalFrame w h cs).left (some q.2.left)
                y := jadd (finalFrame w h cs).top (some q.2.top)
                width := jsub (jsub (finalFrame w h cs).right (some q.2.right))
                  (jadd (finalFrame w h cs).left (some q.2.left))
                height := jsub (jsub (finalFrame w h cs).bottom (some q.2.bottom))
                  (jadd (finalFrame w h cs).top (some q.2.top)) }) : ℕ × Rect))) ∧
    (∀ (w h : ℚ) (cs : List ChildAttrs),
      List.Sorted (· < ·) ((runPass1 0 0 w h (initFrame w h) 0 cs).2.2.1.map Prod.fst)) ∧
    (layoutEngine 200 100 [⟨none, some (some 50), none, some "left"⟩,
        ⟨none, none, none, none⟩]).1 =
      [(0, ⟨some 0, some 0, some 50, some 100⟩), (1, ⟨some 50, some 0, some 150, some 100⟩)] := by
  refine ⟨fun w h cs => rfl, fun w h cs => runPass1_deferred_sorted 0 0 w h cs (initFrame w h) 0, ?_⟩
  simp only [layoutEngine, runPass1, stepChild_dock_left, stepChild_dock_none, childDockWidth,
    childDockHeight, resolvedWidth, resolvedHeight, parseMargin, undockedRect, initFrame,
    jadd_some, jsub_some, jmax_some, jmin_some, List.map]
  norm_num

theorem eq_of_mem_of_nodup_keys :
    ∀ (l : List (ℕ × Rect)), (l.map Prod.fst).Nodup →
      ∀ {i : ℕ} {r1 r2 : Rect}, (i, r1) ∈ l → (i, r2) ∈ l → r1 = r2 := by
  intro l
  induction l with
  | nil => intro _ i r1 r2 h1 _; cases h1
  | cons p l ih =>
    intro hn i r1 r2 h1 h2
    rw [List.map_cons, List.nodup_cons] at hn
    rcases List.mem_cons.mp h1 with e1 | m1 <;> rcases List.mem_cons.mp h2 with e2 | m2
    · rw [← e1] at e2; exact congrArg Prod.snd e2.symm
    · exact absurd (List.mem_map_of_mem Prod.fst m2) (by rw [← e1] at hn; exact hn.1)
    · exact absurd (List.mem_map_of_mem Prod.fst m1) (by rw [← e2] at hn; exact hn.1)
    · exact ih hn.2 m1 m2

/-- C7: for every parent rectangle and child list the engine produces
exactly one `(handle, Rect)` pair per input child: the result has the same
length as the child list and its handles are a permutation of the child
indices `0, …, n-1` (so each child is assigned exactly once and none is
skipped); the computation is total, so no input shape can make it abort. -/
theorem C7_one_rect_per_child (w h : ℚ) (cs : List ChildAttrs) :
    (layoutEngine w h cs).1.length = cs.length ∧
    ((layoutEngine w h cs).1.map Prod.fst).Perm (List.range cs.length) ∧
    (∀ i : ℕ, i < cs.length → ∃! r : Rect, (i, r) ∈ (layoutEngine w h cs).1) := by
  have h1 : (layoutEngine w h cs).1.map Prod.fst =
      (runPass1 0 0 w h (initFrame w h) 0 cs).2.1.map Prod.fst ++
        (runPass1 0 0 w h (initFrame w h) 0 cs).2.2.1.map Prod.fst := by
    simp [layoutEngine, List.map_map, Function.comp]
  have h2 := runPass1_keys_perm 0 0 w h cs (initFrame w h) 0
  have h3 : ((layoutEngine w h cs).1.map Prod.fst).Perm (List.range cs.length) := by
    rw [List.range_eq_range', h1]
    exact h2
  have hlen : (layoutEngine w h cs).1.length = cs.length := by
    have := h3.length_eq
    simpa using this
  refine ⟨hlen, h3, ?_⟩
  intro i hi
  have hnd : ((layoutEngine w h cs).1.map Prod.fst).Nodup :=
    h3.nodup_iff.mpr (List.nodup_range cs.length)
  have hm : i ∈ (layoutEngine w h cs).1.map Prod.fst :=
    h3.mem_iff.mpr (List.mem_range.mpr hi)
  obtain ⟨p, hp, hpe⟩ := List.mem_map.mp hm
  refine ⟨p.2, ?_, fun r hr => ?_⟩
  · rw [← hpe]
    simpa using hp
  · refine eq_of_mem_of_nodup_keys _ hnd hr ?_
    rw [← hpe]
    simpa using hp

/-- Witness for C7: in a one-child layout, child 0 is assigned exactly
one rectangle. -/
theorem C7_one_rect_per_child_witness :
    (0 : ℕ) < List.length [(⟨none, none, none, none⟩ : ChildAttrs)] ∧
    ∃! r : Rect,
      ((0 : ℕ), r) ∈ (layoutEngine 200 100 [(⟨none, none, none, none⟩ : ChildAttrs)]).1 :=
  ⟨by decide, (C7_one_rect_per_child 200 100 [(⟨none, none, none, none⟩ : ChildAttrs)]).2.2 0
    (by decide)⟩

/-- C6: a child whose dock attribute is a non-empty string other than
`top`/`right`/`bottom`/`left` produces exactly one warning (its index
occurs exactly once in the warning list), and the layout output is exactly
the one obtained by treating that child as undocked (replacing its dock by
`undefined`): it is deferred, placed from the finalized frame, modifies no
frame bound, the remaining children are still processed, and the warning
changes no rectangle. -/
theorem C6_unknown_dock (w h : ℚ) (pre post : List ChildAttrs) (c : ChildAttrs) (s : String)
    (hd : c.dock = some s) (h0 : s ≠ "") (h1 : s ≠ "top") (h2 : s ≠ "right")
    (h3 : s ≠ "bottom") (h4 : s ≠ "left") :
    ((layoutEngine w h (pre ++ c :: post)).2).count pre.length = 1 ∧
    (layoutEngine w h (pre ++ c :: post)).1 =
      (layoutEngine w h (pre ++ (⟨c.margin, c.width, c.height, none⟩ : ChildAttrs) :: post)).1 := by
  have hstep : ∀ fr, stepChild 0 0 w h fr c = ⟨fr, none, some (parseMargin c.margin), true⟩ :=
    fun fr => stepChild_dock_unknown 0 0 w h fr c s hd h0 h1 h2 h3 h4
  have hstep2 : ∀ fr, stepChild 0 0 w h fr (⟨c.margin, c.width, c.height, none⟩ : ChildAttrs) =
      ⟨fr, none, some (parseMargin c.margin), false⟩ :=
    fun fr => stepChild_dock_none 0 0 w h fr c.margin c.width c.height
  constructor
  · have e : (layoutEngine w h (pre ++ c :: post)).2 =
        (runPass1 0 0 w h (initFrame w h) 0 pre).2.2.2 ++
          (pre.length ::
            (runPass1 0 0 w h (runPass1 0 0 w h (initFrame w h) 0 pre).1
              (pre.length + 1) post).2.2.2) := by
      simp [layoutEngine, runPass1_append, runPass1_cons, hstep]
    rw [e, List.count_append]
    have cA : ((runPass1 0 0 w h (initFrame w h) 0 pre).2.2.2).count pre.length = 0 := by
      rw [List.count_eq_zero]
      intro hmem
      have := runPass1_warns_bounds 0 0 w h pre (initFrame w h) 0 pre.length hmem
      omega
    have cB : ((runPass1 0 0 w h (runPass1 0 0 w h (initFrame w h) 0 pre).1
        (pre.length + 1) post).2.2.2).count pre.length = 0 := by
      rw [List.count_eq_zero]
      intro hmem
      have := runPass1_warns_bounds 0 0 w h post
        (runPass1 0 0 w h (initFrame w h) 0 pre).1 (pre.length + 1) pre.length hmem
      omega
    rw [cA, List.count_cons_self, cB]
  · simp [layoutEngine, runPass1_append, runPass1_cons, hstep, hstep2]

/-- Witness for C6 at the spec's Scenario E: `dock="diagonal"` on a child
with no width/height, followed by one plain undocked child. -/
theorem C6_unknown_dock_witness :
    (⟨none, none, none, some "diagonal"⟩ : ChildAttrs).dock = some "diagonal" ∧
    ("diagonal" ≠ "" ∧ "diagonal" ≠ "top" ∧ "diagonal" ≠ "right" ∧
      "diagonal" ≠ "bottom" ∧ "diagonal" ≠ "left") ∧
    ((layoutEngine 200 100
        ([] ++ (⟨none, none, none, some "diagonal"⟩ : ChildAttrs) ::
          [(⟨none, none, none, none⟩ : ChildAttrs)])).2).count
        (List.length ([] : List ChildAttrs)) = 1 ∧
    (layoutEngine 200 100
        ([] ++ (⟨none, none, none, some "diagonal"⟩ : ChildAttrs) ::
          [(⟨none, none, none, none⟩ : ChildAttrs)])).1 =
      (layoutEngine 200 100
        ([] ++ (⟨none, none, none, none⟩ : ChildAttrs) ::
          [(⟨none, none, none, none⟩ : ChildAttrs)])).1 := by
  have hmain := C6_unknown_dock 200 100 [] [(⟨none, none, none, none⟩ : ChildAttrs)]
    (⟨none, none, none, some "diagonal"⟩ : ChildAttrs) "diagonal" rfl
    (by decide) (by decide) (by decide) (by decide) (by decide)
  exact ⟨rfl, ⟨by decide, by decide, by decide, by decide, by decide⟩, hmain.1, hmain.2⟩

/-- C8: a child with no width (resp. height) attribute falls back to the
full parent width (resp. height) as fixed at invocation start, not to the
undocked frame: the resolved size and hence the whole placed rectangle are
independent of the frame state, so they are identical no matter how many
docked children were processed earlier in the pass. -/
theorem C8_size_fallback :
    (∀ (x y w h : ℚ) (fr1 fr2 : Frame) (c : ChildAttrs),
      (stepChild x y w h fr1 c).placed = (stepChild x y w h fr2 c).placed) ∧
    (∀ (w : ℚ) (c : ChildAttrs), c.width = none → resolvedWidth w c = some w) ∧
    (∀ (h : ℚ) (c : ChildAttrs), c.height = none → resolvedHeight h c = some h) := by
  refine ⟨fun x y w h fr1 fr2 c => ?_, fun w c hw => by simp [resolvedWidth, hw],
    fun h c hh => by simp [resolvedHeight, hh]⟩
  obtain ⟨m, cw, ch, d⟩ := c
  cases d with
  | none => rfl
  | some s =>
    by_cases h0 : s = ""
    · subst h0; rfl
    by_cases h1 : s = "top"
    · subst h1; rfl
    by_cases h2 : s = "right"
    · subst h2; rfl
    by_cases h3 : s = "bottom"
    · subst h3; rfl
    by_cases h4 : s = "left"
    · subst h4; rfl
    rw [stepChild_dock_unknown x y w h fr1 _ s rfl h0 h1 h2 h3 h4,
      stepChild_dock_unknown x y w h fr2 _ s rfl h0 h1 h2 h3 h4]

/-- Witness for C8: a child with neither attribute resolves to the full
parent 200×100 whatever the frame state is. -/
theorem C8_size_fallback_witness :
    (⟨none, none, none, none⟩ : ChildAttrs).width = none ∧
    (⟨none, none, none, none⟩ : ChildAttrs).height = none ∧
    resolvedWidth 200 (⟨none, none, none, none⟩ : ChildAttrs) = some 200 ∧
    resolvedHeight 100 (⟨none, none, none, none⟩ : ChildAttrs) = some 100 :=
  ⟨rfl, rfl, C8_size_fallback.2.1 200 _ rfl, C8_size_fallback.2.2 100 _ rfl⟩

/-- C9: width/height parsing is not fail-soft: a child whose width
attribute does not parse as a number (`Number` gives `NaN`, modelled
`some none`) propagates the `NaN` into its dock footprint, into the frame
bound it docks against, into its own rectangle's width, and from the
poisoned frame into the undocked child placed afterwards; the
corresponding height variant poisons the rectangle's `y` and `height`. -/
theorem C9_nan_propagation :
    childDockWidth 200 (⟨none, some none, none, some "left"⟩ : ChildAttrs) = none ∧
    (finalFrame 200 100 [⟨none, some none, none, some "left"⟩,
      ⟨none, none, none, none⟩]).left = none ∧
    (layoutEngine 200 100 [⟨none, some none, none, some "left"⟩,
        ⟨none, none, none, none⟩]).1 =
      [(0, ⟨some 0, some 0, none, some 100⟩), (1, ⟨none, some 0, none, some 100⟩)] ∧
    (layoutEngine 200 100 [⟨none, none, some none, some "bottom"⟩]).1 =
      [(0, ⟨some 0, none, some 200, none⟩)] ∧
    (finalFrame 200 100 [⟨none, none, some none, some "bottom"⟩]).bottom = none := by
  refine ⟨rfl, ?_, ?_, ?_, ?_⟩ <;>
    simp only [layoutEngine, finalFrame, runPass1, stepChild_dock_left, stepChild_dock_bottom,
      stepChild_dock_none, childDockWidth, childDockHeight, resolvedWidth, resolvedHeight,
      parseMargin, undockedRect, initFrame, jadd_some, jsub_some, jmax_some, jmin_some,
      jadd_none_left, jadd_none_right, jsub_none_left, jsub_none_right, jmax_none_left,
      jmax_none_right, jmin_none_left, jmin_none_right, List.map] <;>
    norm_num

/-- C10: a child docked to a recognized side mutates only that side's
frame bound (the other three are returned unchanged), and a child with no
dock or an unrecognized dock leaves the whole frame unchanged; hence the
finalized frame depends only on the recognized-docked children (filtering
the others out of the list gives the same final frame). -/
theorem C10_frame_isolation :
    (∀ (x y w h : ℚ) (fr : Frame) (c : ChildAttrs),
      (c.dock = some "top" → (stepChild x y w h fr c).frame.right = fr.right ∧
        (stepChild x y w h fr c).frame.bottom = fr.bottom ∧
        (stepChild x y w h fr c).frame.left = fr.left) ∧
      (c.dock = some "right" → (stepChild x y w h fr c).frame.top = fr.top ∧
        (stepChild x y w h fr c).frame.bottom = fr.bottom ∧
        (stepChild x y w h fr c).frame.left = fr.left) ∧
      (c.dock = some "bottom" → (stepChild x y w h fr c).frame.top = fr.top ∧
        (stepChild x y w h fr c).frame.right = fr.right ∧
        (stepChild x y w h fr c).frame.left = fr.left) ∧
      (c.dock = some "left" → (stepChild x y w h fr c).frame.top = fr.top ∧
        (stepChild x y w h fr c).frame.right = fr.right ∧
        (stepChild x y w h fr c).frame.bottom = fr.bottom) ∧
      (recognizedDock c = false → (stepChild x y w h fr c).frame = fr)) ∧
    (∀ (w h : ℚ) (cs : List ChildAttrs),
      finalFrame w h cs = finalFrame w h (cs.filter recognizedDock)) := by
  constructor
  · intro x y w h fr c
    refine ⟨fun hd => ?_, fun hd => ?_, fun hd => ?_, fun hd => ?_, fun hr => ?_⟩
    · obtain ⟨m, cw, ch, d⟩ := c; cases hd; exact ⟨rfl, rfl, rfl⟩
    · obtain ⟨m, cw, ch, d⟩ := c; cases hd; exact ⟨rfl, rfl, rfl⟩
    · obtain ⟨m, cw, ch, d⟩ := c; cases hd; exact ⟨rfl, rfl, rfl⟩
    · obtain ⟨m, cw, ch, d⟩ := c; cases hd; exact ⟨rfl, rfl, rfl⟩
    · obtain ⟨b, hb⟩ := stepChild_not_recognized x y w h fr c hr
      rw [hb]
  · intro w h cs
    exact (runPass1_frame_filter 0 0 w h cs (initFrame w h) 0 0).symm

/-- Witness for C10: a `dock=top` child touches neither `right`, `bottom`
nor `left` of the initial 200×100 frame, and an undocked child leaves the
frame untouched entirely. -/
theorem C10_frame_isolation_witness :
    (⟨none, none, some (some 20), some "top"⟩ : ChildAttrs).dock = some "top" ∧
    recognizedDock (⟨none, none, none, none⟩ : ChildAttrs) = false ∧
    ((stepChild 0 0 200 100 (initFrame 200 100)
        (⟨none, none, some (some 20), some "top"⟩ : ChildAttrs)).frame.right =
        (initFrame 200 100).right ∧
      (stepChild 0 0 200 100 (initFrame 200 100)
        (⟨none, none, some (some 20), some "top"⟩ : ChildAttrs)).frame.bottom =
        (initFrame 200 100).bottom ∧
      (stepChild 0 0 200 100 (initFrame 200 100)
        (⟨none, none, some (some 20), some "top"⟩ : ChildAttrs)).frame.left =
        (initFrame 200 100).left) ∧
    (stepChild 0 0 200 100 (initFrame 200 100)
      (⟨none, none, none, none⟩ : ChildAttrs)).frame = initFrame 200 100 :=
  ⟨rfl, rfl,
    (C10_frame_isolation.1 0 0 200 100 (initFrame 200 100) _).1 rfl,
    (C10_frame_isolation.1 0 0 200 100 (initFrame 200 100) _).2.2.2.2 rfl⟩
